import Mathlib

/-!
Verification development for the cv-dashboard repository.

The client code (two dashboard variants, called part_001 and part_002 below,
plus the HTTP Basic-auth middleware, part_000) is shallowly embedded:
records become a Lean structure, JavaScript string operations become
executable functions on `List Char`, the paginated backing store becomes a
list of records sliced by offset, and the file-store signer becomes an
explicit `String → Nat → Option String` oracle.
-/

namespace CvDashboard

/-! ## String helpers: executable models of the JavaScript string operations -/

/-- Model of JavaScript `String.prototype.toLowerCase` restricted to ASCII
letters (all keyword comparisons in the source are ASCII or already
lowercase). -/
def lowChar (c : Char) : Char :=
  if 'A' ≤ c ∧ c ≤ 'Z' then Char.ofNat (c.toNat + 32) else c

/-- Lowercase every character of a string. -/
def lowStr (s : String) : String := String.mk (s.data.map lowChar)

/-- Whitespace recognized by the model of `String.prototype.trim`. -/
def isWsChar (c : Char) : Bool := c == ' ' || c == '\t' || c == '\n' || c == '\r'

/-- Trim whitespace from both ends of a character list. -/
def trimChars (l : List Char) : List Char :=
  ((l.dropWhile isWsChar).reverse.dropWhile isWsChar).reverse

/-- `prefixChars p l` is true when `p` is a prefix of `l`
(model of `String.prototype.startsWith`). -/
def prefixChars : List Char → List Char → Bool
  | [], _ => true
  | _ :: _, [] => false
  | a :: as, b :: bs => a == b && prefixChars as bs

/-- `subChars p l` is true when `p` occurs contiguously inside `l`
(model of `String.prototype.includes`). -/
def subChars (pat : List Char) : List Char → Bool
  | [] => pat.isEmpty
  | c :: t => prefixChars pat (c :: t) || subChars pat t

/-- `containsSub s pat` models `s.includes(pat)`. -/
def containsSub (s pat : String) : Bool := subChars pat.data s.data

/-- `startsWithStr s pat` models `s.startsWith(pat)`. -/
def startsWithStr (s pat : String) : Bool := prefixChars pat.data s.data

/-- Model of `String.prototype.split` with a one-character separator. -/
def splitChars (sep : Char) : List Char → List (List Char)
  | [] => [[]]
  | c :: t =>
    if c = sep then
      [] :: splitChars sep t
    else
      match splitChars sep t with
      | [] => [[c]]
      | p :: ps => (c :: p) :: ps

/-- String-level wrapper for `splitChars`. -/
def splitStr (s : String) (sep : Char) : List String :=
  (splitChars sep s.data).map String.mk

/-! ## Data model

`CandidateRow` follows the `CandidateRow` type declared identically in
part_001 (lines 11-41) and part_002 (lines 21-46).  TypeScript
`string | null` becomes `Option String`, `number | null` becomes `Option ℚ`,
and `boolean | null` becomes `Option Bool`. -/

structure CandidateRow where
  id : String
  file_name : Option String
  cv_url : Option String
  cv_batch : Option String
  full_name : Option String
  degree_level : Option String
  field_of_study : Option String
  total_experience_years : Option ℚ
  last_job_title : Option String
  last_company : Option String
  speaks_english : Option Bool
  english_level : Option String
  cv_language : Option String
  profile_type : Option String
  score_profil : Option ℚ
  notes : Option String
  education_raw : Option String
  experience_raw : Option String
deriving DecidableEq

/-- A row with every nullable field null, used to build concrete records. -/
def blankRow : CandidateRow :=
  { id := ""
    file_name := none
    cv_url := none
    cv_batch := none
    full_name := none
    degree_level := none
    field_of_study := none
    total_experience_years := none
    last_job_title := none
    last_company := none
    speaks_english := none
    english_level := none
    cv_language := none
    profile_type := none
    score_profil := none
    notes := none
    education_raw := none
    experience_raw := none }

/-! ## part_001 definitions -/

/-- part_001 line 47: `norm(s) = String(s ?? "").trim()`. -/
def norm1 (v : Option String) : String := String.mk (trimChars (v.getD "").data)

/-- part_001 lines 70-83, `looksLikeUnusable`: a row is unusable when no key
signal is present (`hasKey` is the disjunction of: trimmed name longer than 2
characters, non-blank degree, non-blank field, positive experience, non-blank
last job title, or notes containing "non lisible"). -/
def looksLikeUnusable (row : CandidateRow) : Bool :=
  !(decide (2 < (norm1 row.full_name).length) ||
    decide (0 < (norm1 row.degree_level).length) ||
    decide (0 < (norm1 row.field_of_study).length) ||
    decide ((0 : ℚ) < row.total_experience_years.getD 0) ||
    decide (0 < (norm1 row.last_job_title).length) ||
    containsSub (lowStr (norm1 row.notes)) "non lisible")

/-- part_001 lines 85-114, `looksTargetProfile`: degree keyword match AND
field keyword match AND experience ≥ 3 AND English signal
(`speaks_english === true` or non-blank `english_level`). -/
def looksTargetProfile (row : CandidateRow) : Bool :=
  (containsSub (lowStr (norm1 row.degree_level)) "bac+5" ||
   containsSub (lowStr (norm1 row.degree_level)) "licence" ||
   containsSub (lowStr (norm1 row.degree_level)) "master" ||
   containsSub (lowStr (norm1 row.degree_level)) "ing" ||
   containsSub (lowStr (norm1 row.degree_level)) "ingen") &&
  (containsSub (lowStr (norm1 row.field_of_study)) "économie math" ||
   containsSub (lowStr (norm1 row.field_of_study)) "economie math" ||
   containsSub (lowStr (norm1 row.field_of_study)) "économie quant" ||
   containsSub (lowStr (norm1 row.field_of_study)) "economie quant" ||
   containsSub (lowStr (norm1 row.field_of_study)) "quant" ||
   containsSub (lowStr (norm1 row.field_of_study)) "econom" ||
   containsSub (lowStr (norm1 row.field_of_study)) "génie" ||
   containsSub (lowStr (norm1 row.field_of_study)) "genie" ||
   containsSub (lowStr (norm1 row.field_of_study)) "informat" ||
   containsSub (lowStr (norm1 row.field_of_study)) "computer" ||
   containsSub (lowStr (norm1 row.field_of_study)) "software" ||
   containsSub (lowStr (norm1 row.field_of_study)) "data") &&
  decide ((3 : ℚ) ≤ row.total_experience_years.getD 0) &&
  ((row.speaks_english == some true) ||
   decide (0 < (norm1 row.english_level).length))

/-- The UI profile filter of part_001 (line 8). -/
inductive ProfileFilter where
  | ALL | A | B | C | A_REVOIR
deriving DecidableEq

/-- part_001 lines 55-62, `toProfileFilter`: normalize the stored
`profile_type` label; unrecognized labels map to `ALL`. -/
def toProfileFilter (profile_type : Option String) : ProfileFilter :=
  if startsWithStr (lowStr (profile_type.getD "")) "a" &&
     containsSub (lowStr (profile_type.getD "")) "revoir" then .A_REVOIR
  else if lowStr (profile_type.getD "") == "a" then .A
  else if lowStr (profile_type.getD "") == "b" then .B
  else if lowStr (profile_type.getD "") == "c" then .C
  else .ALL

/-- The per-label counters of part_001's aggregator (lines 323-336). -/
structure ByProfile where
  A : Nat
  B : Nat
  C : Nat
  A_REVOIR : Nat
deriving DecidableEq

/-- part_001 lines 330-338 and 344-354: count rows per normalized stored
label; rows whose label normalizes to `ALL` are counted nowhere. -/
def countProfiles (arr : List CandidateRow) : ByProfile :=
  arr.foldl
    (fun out r =>
      match toProfileFilter r.profile_type with
      | .A => { out with A := out.A + 1 }
      | .B => { out with B := out.B + 1 }
      | .C => { out with C := out.C + 1 }
      | .A_REVOIR => { out with A_REVOIR := out.A_REVOIR + 1 }
      | .ALL => out)
    ⟨0, 0, 0, 0⟩

/-- The aggregate numbers produced by part_001's `computed` (lines 315-374)
for the "all" tab: total, usable/unusable split via `looksLikeUnusable`, and
per-label counts via `toProfileFilter`. -/
structure Stats1 where
  total : Nat
  usableCount : Nat
  unusableCount : Nat
  byProfile : ByProfile
deriving DecidableEq

/-- part_001 lines 315-360: the aggregator of the first dashboard variant. -/
def computed1 (rows : List CandidateRow) : Stats1 :=
  { total := rows.length
    usableCount := (rows.filter (fun r => !looksLikeUnusable r)).length
    unusableCount := (rows.filter (fun r => looksLikeUnusable r)).length
    byProfile := countProfiles rows }

/-- part_001 line 342: membership in the "english" tab of the first variant
is plain equality of the lowercased trimmed language with "en". -/
def englishTab1 (r : CandidateRow) : Bool :=
  lowStr (norm1 r.cv_language) == "en"

/-- Sort key of part_001's `visibleRows` (line 400): missing score is `-1`. -/
def keyScore1 (r : CandidateRow) : ℚ := r.score_profil.getD (-1)

/-- The ordering used by part_001's score-descending comparator. -/
def scoreGE1 (a b : CandidateRow) : Prop := keyScore1 b ≤ keyScore1 a

instance : DecidableRel scoreGE1 := fun a b =>
  inferInstanceAs (Decidable (keyScore1 b ≤ keyScore1 a))

instance : IsTotal CandidateRow scoreGE1 := ⟨fun a b => le_total (keyScore1 b) (keyScore1 a)⟩

instance : IsTrans CandidateRow scoreGE1 := ⟨fun _ _ _ h1 h2 => le_trans h2 h1⟩

/-- part_001 lines 397-418 with `sortKey = "score_desc"`: a stable sort by
the comparator `scoreB - scoreA` with missing scores as `-1`, modelled as a
stable insertion sort under `scoreGE1`. -/
def sortScoreDesc1 (rows : List CandidateRow) : List CandidateRow :=
  List.insertionSort scoreGE1 rows

/-- part_001 lines 51-53, `isHttpUrl`: case-insensitive test for an absolute
http(s) URL. -/
def isHttpUrl (s : String) : Bool :=
  startsWithStr (lowStr s) "http://" || startsWithStr (lowStr s) "https://"

/-- part_001 lines 121-123: remove one leading `bucket + "/"` from a storage
path when present. -/
def stripBucket (bucket pathOrUrl : String) : String :=
  if startsWithStr pathOrUrl (bucket ++ "/") then
    String.mk (pathOrUrl.data.drop (bucket ++ "/").length)
  else pathOrUrl

/-- part_001 lines 116-134, `createSignedUrlIfNeeded`.  The external file
store is the oracle `sign : path → ttlSeconds → Option url`; `none` models a
signing error, and the function returns `none` (never throws) in that case. -/
def createSignedUrlIfNeeded (sign : String → Nat → Option String)
    (pathOrUrl bucket : String) : Option String :=
  if pathOrUrl == "" then none
  else if isHttpUrl pathOrUrl then some pathOrUrl
  else sign (stripBucket bucket pathOrUrl) (60 * 15)

/-- part_001 lines 423-445, `openCv`: the link finally stored in `cvUrl`.
The candidate reference is `norm(cv_url) || norm(file_name)`; an empty
candidate yields `none` ("cannot open"), otherwise the resolution is
delegated to `createSignedUrlIfNeeded`. -/
def openCv (sign : String → Nat → Option String) (bucket : String)
    (row : CandidateRow) : Option String :=
  if (if norm1 row.cv_url == "" then norm1 row.file_name else norm1 row.cv_url) == "" then
    none
  else
    createSignedUrlIfNeeded sign
      (if norm1 row.cv_url == "" then norm1 row.file_name else norm1 row.cv_url) bucket

/-! ## The pagination loop (part_001 lines 247-302 and part_002 lines 206-241)

Both variants run the same loop: request rows `from .. from+999`, append,
and continue while a full page of 1000 rows came back.  The backing store is
a list `store` holding the batch's records in their fixed serving order; a
request at offset `start` returns the slice `(store.drop start).take 1000`,
or an error when `failAt start` is true (modelling a failed retrieval).
The result pairs the loop's outcome with the number of page requests issued. -/

def fetchLoop (store : List CandidateRow) (failAt : Nat → Bool) (start : Nat) :
    Except String (List CandidateRow) × Nat :=
  if failAt start then (Except.error "fetch error", 1)
  else if h : ((store.drop start).take 1000).length < 1000 then
    (Except.ok ((store.drop start).take 1000), 1)
  else
    let r := fetchLoop store failAt (start + 1000)
    (Except.map (fun rest => (store.drop start).take 1000 ++ rest) r.1, r.2 + 1)
termination_by store.length - start
decreasing_by
  simp only [List.length_take, List.length_drop, not_lt] at h
  omega

/-- part_001 lines 295-301: on success the fetched list replaces the rows and
the error is cleared; on failure only the error message is set and the
previously displayed rows are left untouched. -/
def part001ApplyFetch (store : List CandidateRow) (failAt : Nat → Bool)
    (prevRows : List CandidateRow) : List CandidateRow × Option String :=
  match fetchLoop store failAt 0 with
  | (Except.ok all, _) => (all, none)
  | (Except.error e, _) => (prevRows, some e)

/-- part_002 lines 234-240: on success the fetched list replaces the rows;
on failure the rows are cleared to `[]` and the error message is set. -/
def part002ApplyFetch (store : List CandidateRow) (failAt : Nat → Bool)
    (_prevRows : List CandidateRow) : List CandidateRow × Option String :=
  match fetchLoop store failAt 0 with
  | (Except.ok all, _) => (all, none)
  | (Except.error e, _) => ([], some e)

/-! ## part_002 definitions -/

/-- part_002 lines 51-70, `norm`: trim, then map the placeholder junk values
some Supabase views return ("—", "-", "n/a", ...) to the empty string. -/
def norm2 (v : Option String) : String :=
  if norm1 v == "" then ""
  else if lowStr (norm1 v) == "—" || lowStr (norm1 v) == "–" ||
          lowStr (norm1 v) == "-" || lowStr (norm1 v) == "n/a" ||
          lowStr (norm1 v) == "na" || lowStr (norm1 v) == "null" ||
          lowStr (norm1 v) == "undefined" || lowStr (norm1 v) == "non spécifié" ||
          lowStr (norm1 v) == "non specifie" then ""
  else norm1 v

/-- part_002 lines 72-75, `isEnglishCv`. -/
def isEnglishCv (r : CandidateRow) : Bool :=
  lowStr (norm2 r.cv_language) == "en" ||
  startsWithStr (lowStr (norm2 r.cv_language)) "en-" ||
  containsSub (lowStr (norm2 r.cv_language)) "english" ||
  containsSub (lowStr (norm2 r.cv_language)) "anglais"

/-- part_002 lines 102-121, `isUnusable`: unusable when every one of
full_name, degree_level, field_of_study, last_job_title, last_company,
education_raw, experience_raw normalizes to empty, OR when the notes carry
one of the "unreadable" marker phrases. -/
def isUnusable (r : CandidateRow) : Bool :=
  !(!(norm2 r.full_name == "") || !(norm2 r.degree_level == "") ||
    !(norm2 r.field_of_study == "") || !(norm2 r.last_job_title == "") ||
    !(norm2 r.last_company == "") || !(norm2 r.education_raw == "") ||
    !(norm2 r.experience_raw == "")) ||
  (containsSub (lowStr (norm2 r.notes)) "cv non lisible" ||
   containsSub (lowStr (norm2 r.notes)) "illisible" ||
   containsSub (lowStr (norm2 r.notes)) "inutilisable" ||
   containsSub (lowStr (norm2 r.notes)) "texte trop court")

/-- The score bands of part_002 (line 9). -/
inductive ScoreBand where
  | A | B | C | REVIEW | UNUSABLE
deriving DecidableEq

/-- part_002 lines 123-130, `bandFromScore`: unusable rows map to UNUSABLE,
otherwise the score (0 when missing) is banded by 80/60/40 thresholds. -/
def bandFromScore (r : CandidateRow) : ScoreBand :=
  if isUnusable r then .UNUSABLE
  else if (80 : ℚ) ≤ r.score_profil.getD 0 then .A
  else if (60 : ℚ) ≤ r.score_profil.getD 0 then .B
  else if (40 : ℚ) ≤ r.score_profil.getD 0 then .C
  else .REVIEW

/-- The aggregate numbers computed in part_002's `computed` (lines 253-263). -/
structure Stats2 where
  total : Nat
  unusable : Nat
  usable : Nat
  countA : Nat
  countB : Nat
  countC : Nat
  countReview : Nat
deriving DecidableEq

/-- part_002 lines 253-263: the aggregator of the second dashboard variant,
counting bands derived from `bandFromScore` over `rows.map` of (row, band)
pairs. -/
def computed2 (rows : List CandidateRow) : Stats2 :=
  { total := (rows.map (fun r => (r, bandFromScore r))).length
    unusable := ((rows.map (fun r => (r, bandFromScore r))).filter
      (fun x => x.2 == ScoreBand.UNUSABLE)).length
    usable := (rows.map (fun r => (r, bandFromScore r))).length -
      ((rows.map (fun r => (r, bandFromScore r))).filter
        (fun x => x.2 == ScoreBand.UNUSABLE)).length
    countA := ((rows.map (fun r => (r, bandFromScore r))).filter
      (fun x => x.2 == ScoreBand.A)).length
    countB := ((rows.map (fun r => (r, bandFromScore r))).filter
      (fun x => x.2 == ScoreBand.B)).length
    countC := ((rows.map (fun r => (r, bandFromScore r))).filter
      (fun x => x.2 == ScoreBand.C)).length
    countReview := ((rows.map (fun r => (r, bandFromScore r))).filter
      (fun x => x.2 == ScoreBand.REVIEW)).length }

/-- Sort key of part_002's `computed` sort (line 284): missing score is `0`. -/
def keyScore2 (r : CandidateRow) : ℚ := r.score_profil.getD 0

/-- The ordering used by part_002's score-descending comparator. -/
def scoreGE2 (a b : CandidateRow) : Prop := keyScore2 b ≤ keyScore2 a

instance : DecidableRel scoreGE2 := fun a b =>
  inferInstanceAs (Decidable (keyScore2 b ≤ keyScore2 a))

instance : IsTotal CandidateRow scoreGE2 := ⟨fun a b => le_total (keyScore2 b) (keyScore2 a)⟩

instance : IsTrans CandidateRow scoreGE2 := ⟨fun _ _ _ h1 h2 => le_trans h2 h1⟩

/-- part_002 lines 281-287 with `sort = "score_desc"`: a stable sort by
`(b.score_profil ?? 0) - (a.score_profil ?? 0)`, modelled as a stable
insertion sort under `scoreGE2`. -/
def sortScoreDesc2 (rows : List CandidateRow) : List CandidateRow :=
  List.insertionSort scoreGE2 rows

/-! ## part_000: the HTTP Basic-auth middleware -/

/-- JavaScript truthiness for an optional string: null/undefined and the
empty string are falsy. -/
def truthyStr (o : Option String) : Bool := !(o.getD "" == "")

/-- part_000 lines 3-29, `middleware`.  `decode` models `atob`; the result is
`true` for `NextResponse.next()` (request passes) and `false` for the 401
response.  The destructuring `[scheme, encoded] = basicAuth.split(" ")` and
`[user, pass] = decoded.split(":")` keeps the first two segments; a missing
second segment is `undefined`, modelled as `none`. -/
def middleware (decode : String → String) (username password : Option String)
    (basicAuth : Option String) : Bool :=
  if truthyStr basicAuth && truthyStr username && truthyStr password then
    if (splitStr (basicAuth.getD "") ' ').headD "" == "Basic" &&
       truthyStr ((splitStr (basicAuth.getD "") ' ').drop 1).head? then
      if (splitStr (decode ((((splitStr (basicAuth.getD "") ' ').drop 1).head?).getD "")) ':').headD ""
            == username.getD "" &&
         ((splitStr (decode ((((splitStr (basicAuth.getD "") ' ').drop 1).head?).getD "")) ':').drop 1).head?
            == some (password.getD "") then
        true
      else false
    else false
  else false

/-! ## Definitions modelled from the claims' wording, for comparison -/

/-- Modelled from the claim C1 wording: the exact condition under which the
claim says `isUsable` is false (all four text fields blank, experience zero
or unknown, and no unreadable-marker phrase in the notes). -/
def specUnusable_C1 (r : CandidateRow) : Prop :=
  norm1 r.full_name = "" ∧ norm1 r.degree_level = "" ∧
  norm1 r.field_of_study = "" ∧ norm1 r.last_job_title = "" ∧
  (r.total_experience_years = none ∨ r.total_experience_years = some 0) ∧
  containsSub (lowStr (norm1 r.notes)) "non lisible" = false

instance (r : CandidateRow) : Decidable (specUnusable_C1 r) := by
  unfold specUnusable_C1; infer_instance

/-- Modelled from the claim C2 wording: qualifying degree keyword match AND
relevant field keyword match AND experience ≥ 3, with no English condition. -/
def specTarget_C2 (r : CandidateRow) : Bool :=
  (containsSub (lowStr (norm1 r.degree_level)) "bac+5" ||
   containsSub (lowStr (norm1 r.degree_level)) "licence" ||
   containsSub (lowStr (norm1 r.degree_level)) "master" ||
   containsSub (lowStr (norm1 r.degree_level)) "ing" ||
   containsSub (lowStr (norm1 r.degree_level)) "ingen") &&
  (containsSub (lowStr (norm1 r.field_of_study)) "économie math" ||
   containsSub (lowStr (norm1 r.field_of_study)) "economie math" ||
   containsSub (lowStr (norm1 r.field_of_study)) "économie quant" ||
   containsSub (lowStr (norm1 r.field_of_study)) "economie quant" ||
   containsSub (lowStr (norm1 r.field_of_study)) "quant" ||
   containsSub (lowStr (norm1 r.field_of_study)) "econom" ||
   containsSub (lowStr (norm1 r.field_of_study)) "génie" ||
   containsSub (lowStr (norm1 r.field_of_study)) "genie" ||
   containsSub (lowStr (norm1 r.field_of_study)) "informat" ||
   containsSub (lowStr (norm1 r.field_of_study)) "computer" ||
   containsSub (lowStr (norm1 r.field_of_study)) "software" ||
   containsSub (lowStr (norm1 r.field_of_study)) "data") &&
  decide ((3 : ℚ) ≤ r.total_experience_years.getD 0)

/-- Modelled from the claim C5 wording: UNUSABLE exactly on unusable rows,
otherwise A/B/C/REVIEW by `≥80` / `60-79` / `40-59` / otherwise (a missing
score falls in "otherwise"). -/
def specBand_C5 (r : CandidateRow) : ScoreBand :=
  if isUnusable r then .UNUSABLE
  else
    match r.score_profil with
    | none => .REVIEW
    | some s =>
      if (80 : ℚ) ≤ s then .A
      else if (60 : ℚ) ≤ s ∧ s < 80 then .B
      else if (40 : ℚ) ≤ s ∧ s < 60 then .C
      else .REVIEW

/-- Modelled from the claim C7 wording: cv_language trimmed and lowercased
equals "en", or starts with "en-", or contains "english" or "anglais". -/
def specIsEnglishCv_C7 (r : CandidateRow) : Bool :=
  lowStr (norm1 r.cv_language) == "en" ||
  startsWithStr (lowStr (norm1 r.cv_language)) "en-" ||
  containsSub (lowStr (norm1 r.cv_language)) "english" ||
  containsSub (lowStr (norm1 r.cv_language)) "anglais"

/-- Decidable hypothesis for claim C6: every present score lies in [0,100]. -/
def scoresInRange (rows : List CandidateRow) : Bool :=
  rows.all fun r =>
    match r.score_profil with
    | none => true
    | some s => decide ((0 : ℚ) ≤ s ∧ s ≤ 100)

/-! ## Concrete records used in counterexamples and witnesses -/

/-- A record whose only signal is a 2-character name. -/
def rowAb : CandidateRow := { blankRow with full_name := some "Ab" }

/-- A record matching degree/field/experience criteria but with no English
signal. -/
def rowC2 : CandidateRow :=
  { blankRow with
    degree_level := some "Master"
    field_of_study := some "Data Science"
    total_experience_years := some 4 }

/-- A usable record carrying no stored profile label. -/
def rowJohn : CandidateRow := { blankRow with full_name := some "John Smith" }

/-- A record with no score. -/
def rowNoScore : CandidateRow := { blankRow with id := "x1", full_name := some "Anna" }

/-- A record with a present score of 0. -/
def rowZero : CandidateRow :=
  { blankRow with id := "x2", full_name := some "Bob", score_profil := some 0 }

/-- A record with a present score of 50. -/
def rowFifty : CandidateRow :=
  { blankRow with id := "x3", full_name := some "Carl", score_profil := some 50 }

/-! ## Helper lemmas -/

theorem string_length_le_zero_iff (t : String) : t.length ≤ 0 ↔ t = "" := by
  constructor
  · intro hle
    have h0 : t.length = 0 := Nat.le_zero.mp hle
    cases t with
    | mk d =>
      cases d with
      | nil => rfl
      | cons c cs => simp [String.length] at h0
  · intro he
    subst he
    exact Nat.le_refl 0

/-! ## Claim C1 -/

/-- Claim C1 (counterexample): the record whose only non-null field is the
2-character name "Ab" is classified unusable by part_001's
`looksLikeUnusable` (so `isUsable` is false), although the claim's condition
for `isUsable(r) = false` does not hold there (full_name is not
empty/blank): the claimed equivalence fails on this input. -/
theorem c1_counterexample :
    looksLikeUnusable rowAb = true ∧ ¬ specUnusable_C1 rowAb := by
  decide

/-- Claim C1 (amended): `isUsable(r)` is false under part_001's classifier
exactly when the trimmed full_name has length ≤ 2 (a 1-2 character name
counts as missing), degree_level, field_of_study and last_job_title are
blank, total_experience_years is ≤ 0 or unknown, and the lowercased notes do
not contain the marker phrase "non lisible". -/
theorem c1_amended_usable_iff (r : CandidateRow) :
    looksLikeUnusable r = true ↔
      ((norm1 r.full_name).length ≤ 2 ∧ norm1 r.degree_level = "" ∧
       norm1 r.field_of_study = "" ∧ r.total_experience_years.getD 0 ≤ 0 ∧
       norm1 r.last_job_title = "" ∧
       containsSub (lowStr (norm1 r.notes)) "non lisible" = false) := by
  simp only [looksLikeUnusable, Bool.not_eq_true', Bool.or_eq_false_iff,
    decide_eq_false_iff_not, not_lt, string_length_le_zero_iff]
  tauto

/-! ## Claim C2 -/

/-- Claim C2 (counterexample): a record with degree "Master", field
"Data Science" and 4 years of experience satisfies the claim's three
conditions, yet `looksTargetProfile` rejects it because both English fields
are null; flipping only `speaks_english` changes the result, so English
ability does play a role. -/
theorem c2_counterexample :
    specTarget_C2 rowC2 = true ∧ looksTargetProfile rowC2 = false ∧
    looksTargetProfile { rowC2 with speaks_english := some true } = true := by
  decide

/-- Claim C2 (amended): `looksTargetProfile` is the claim's
degree-and-field-and-experience predicate conjoined with an English-signal
condition: `speaks_english === true` or a non-blank `english_level`. -/
theorem c2_amended_target_iff (r : CandidateRow) :
    looksTargetProfile r =
      (specTarget_C2 r &&
        ((r.speaks_english == some true) ||
         decide (0 < (norm1 r.english_level).length))) := by
  simp only [looksTargetProfile, specTarget_C2, Bool.and_assoc]

/-! ## Claim C5 -/

/-- Claim C5 (confirmed): part_002's `bandFromScore` equals the band policy
stated by the claim (UNUSABLE exactly on unusable records; usable records
get A for score ≥ 80, B for 60-79, C for 40-59, REVIEW otherwise, including
a missing score), and a record is banded UNUSABLE iff it is unusable. -/
theorem c5_band_policy (r : CandidateRow) :
    bandFromScore r = specBand_C5 r ∧
    (bandFromScore r = ScoreBand.UNUSABLE ↔ isUnusable r = true) := by
  constructor
  · unfold bandFromScore specBand_C5
    cases hu : isUnusable r
    · simp only [hu, Bool.false_eq_true, if_false]
      cases hs : r.score_profil with
      | none =>
        norm_num
      | some s =>
        simp only [Option.getD_some]
        by_cases h80 : (80 : ℚ) ≤ s
        · simp [h80]
        · by_cases h60 : (60 : ℚ) ≤ s
          · have hb : (60 : ℚ) ≤ s ∧ s < 80 := ⟨h60, lt_of_not_le h80⟩
            simp [h80, h60, hb]
          · by_cases h40 : (40 : ℚ) ≤ s
            · have hnb : ¬((60 : ℚ) ≤ s ∧ s < 80) := fun hc => h60 hc.1
              have hc : (40 : ℚ) ≤ s ∧ s < 60 := ⟨h40, lt_of_not_le h60⟩
              simp [h80, h60, h40, hnb, hc]
            · have hnb : ¬((60 : ℚ) ≤ s ∧ s < 80) := fun hc => h60 hc.1
              have hnc : ¬((40 : ℚ) ≤ s ∧ s < 60) := fun hc => h40 hc.1
              simp [h80, h60, h40, hnb, hnc]
    · simp [hu]
  · cases hu : isUnusable r
    · simp only [bandFromScore, hu, Bool.false_eq_true, if_false]
      constructor
      · intro hband
        split_ifs at hband
      · intro hfalse
        exact absurd hfalse (by simp)
    · simp [bandFromScore, hu]

/-! ## Claim C7 -/

/-- Claim C7 (counterexample): a record with cv_language "en-US" is in the
ENGLISH subset according to part_002's `isEnglishCv`, but part_001 derives
its "english" tab by strict equality with "en", so the two client-side
derivations disagree: the claim's "everywhere" part fails. -/
theorem c7_counterexample :
    isEnglishCv { blankRow with cv_language := some "en-US" } = true ∧
    englishTab1 { blankRow with cv_language := some "en-US" } = false := by
  decide

/-- Claim C7 (amended): part_002's `isEnglishCv` agrees with the claimed
characterization (cv_language trimmed and lowercased equals "en", starts
with "en-", or contains "english"/"anglais") on every record; the placeholder
normalization of part_002's `norm` never changes the outcome. -/
theorem c7_amended_english_iff (r : CandidateRow) :
    isEnglishCv r = specIsEnglishCv_C7 r := by
  unfold isEnglishCv specIsEnglishCv_C7 norm2
  by_cases h0 : norm1 r.cv_language = ""
  · simp only [h0]
    decide
  · have h0' : (norm1 r.cv_language == "") = false := by
      rw [beq_eq_false_iff_ne]
      exact h0
    rw [if_neg (by simp [h0'])]
    by_cases hp : (lowStr (norm1 r.cv_language) == "—" ||
        lowStr (norm1 r.cv_language) == "–" ||
        lowStr (norm1 r.cv_language) == "-" ||
        lowStr (norm1 r.cv_language) == "n/a" ||
        lowStr (norm1 r.cv_language) == "na" ||
        lowStr (norm1 r.cv_language) == "null" ||
        lowStr (norm1 r.cv_language) == "undefined" ||
        lowStr (norm1 r.cv_language) == "non spécifié" ||
        lowStr (norm1 r.cv_language) == "non specifie") = true
    · rw [if_pos hp]
      generalize lowStr (norm1 r.cv_language) = u at hp ⊢
      simp only [Bool.or_eq_true, beq_iff_eq, or_assoc] at hp
      rcases hp with h | h | h | h | h | h | h | h | h <;> subst h <;> decide
    · rw [if_neg hp]

/-! ## Claim C3 -/

theorem band_partition (rows : List CandidateRow) :
    rows.countP (fun r => bandFromScore r == ScoreBand.A) +
    rows.countP (fun r => bandFromScore r == ScoreBand.B) +
    rows.countP (fun r => bandFromScore r == ScoreBand.C) +
    rows.countP (fun r => bandFromScore r == ScoreBand.REVIEW) +
    rows.countP (fun r => bandFromScore r == ScoreBand.UNUSABLE) = rows.length := by
  induction rows with
  | nil => rfl
  | cons r t ih =>
    simp only [List.countP_cons, List.length_cons]
    cases hb : bandFromScore r <;> simp [hb] <;> omega

/-- Claim C3 (counterexample): part_001's aggregator counts bands from the
stored `profile_type` label and skips unrecognized labels, so on the
single-record list holding a usable record with a null label the per-band
counts sum to 0 while total minus unusable is 1: the claimed partition
equality fails there. -/
theorem c3_counterexample :
    (computed1 [rowJohn]).byProfile.A + (computed1 [rowJohn]).byProfile.B +
    (computed1 [rowJohn]).byProfile.C + (computed1 [rowJohn]).byProfile.A_REVOIR ≠
    (computed1 [rowJohn]).total - (computed1 [rowJohn]).unusableCount := by
  decide

/-- Claim C3 (amended): for part_002's score-derived aggregator the claim
holds: the A/B/C/REVIEW counts sum to total minus unusable, the empty list
yields all-zero statistics, and every usable record is banded into one of
the four non-UNUSABLE bands (each record receives exactly one band, so no
record is double-counted); part_001's label-derived aggregator does not
satisfy the partition equality. -/
theorem c3_amended_partition (rows : List CandidateRow) :
    (computed2 rows).countA + (computed2 rows).countB + (computed2 rows).countC +
      (computed2 rows).countReview = (computed2 rows).total - (computed2 rows).unusable ∧
    computed2 [] = ⟨0, 0, 0, 0, 0, 0, 0⟩ ∧
    (∀ r ∈ rows, isUnusable r = false → bandFromScore r ≠ ScoreBand.UNUSABLE) := by
  refine ⟨?_, rfl, ?_⟩
  · have hp := band_partition rows
    simp only [computed2, ← List.countP_eq_length_filter, List.countP_map,
      List.length_map, Function.comp_def]
    omega
  · intro r _ hu
    simp only [bandFromScore, hu, Bool.false_eq_true, if_false]
    split_ifs <;> simp

/-- Witness for claim C3's amended theorem at a concrete record list. -/
theorem c3_witness :
    ((computed2 [rowJohn]).countA + (computed2 [rowJohn]).countB +
      (computed2 [rowJohn]).countC + (computed2 [rowJohn]).countReview =
      (computed2 [rowJohn]).total - (computed2 [rowJohn]).unusable) ∧
    bandFromScore rowJohn ≠ ScoreBand.UNUSABLE :=
  ⟨(c3_amended_partition [rowJohn]).1,
   (c3_amended_partition [rowJohn]).2.2 rowJohn (by decide) (by decide)⟩

/-! ## Claim C4 -/

theorem fetchLoop_noFail :
    ∀ (n : Nat) (store : List CandidateRow) (start : Nat),
      store.length - start ≤ n →
      fetchLoop store (fun _ => false) start =
        (Except.ok (store.drop start), (store.length - start) / 1000 + 1) := by
  intro n
  induction n with
  | zero =>
    intro store start h
    have h0 : store.length - start = 0 := Nat.le_zero.mp h
    have hdrop : store.drop start = [] := by
      have := List.length_drop start store
      rw [h0] at this
      exact List.length_eq_zero.mp this
    rw [fetchLoop]
    simp [hdrop, h0]
  | succ n ih =>
    intro store start h
    rw [fetchLoop]
    by_cases hc : ((store.drop start).take 1000).length < 1000
    · have hsmall : store.length - start < 1000 := by
        simp only [List.length_take, List.length_drop] at hc
        omega
      have htake : (store.drop start).take 1000 = store.drop start :=
        List.take_of_length_le (by rw [List.length_drop]; omega)
      rw [if_neg (by simp), dif_pos hc, htake, Nat.div_eq_of_lt hsmall]
    · have hge : 1000 ≤ store.length - start := by
        simp only [List.length_take, List.length_drop] at hc
        omega
      have hrec := ih store (start + 1000) (by omega)
      simp only [Bool.false_eq_true, if_false, dif_neg hc, hrec, Except.map]
      have h1 : (store.drop start).take 1000 ++ store.drop (start + 1000) =
          store.drop start := by
        rw [← List.drop_drop]
        exact List.take_append_drop 1000 (store.drop start)
      have h2 : (store.length - (start + 1000)) / 1000 + 1 =
          (store.length - start) / 1000 := by
        have e : store.length - start = (store.length - (start + 1000)) + 1000 := by omega
        rw [e, Nat.add_div_right _ (by norm_num)]
      rw [h1, h2]

/-- Claim C4 (confirmed): with an error-free store of N records served in
fixed order in pages of 1000, the pagination loop returns exactly the
store's list (hence no duplicates and no gaps) using N/1000 + 1 page
requests; in particular a 1200-record batch is fetched with exactly two
requests. -/
theorem c4_fetcher_complete (store : List CandidateRow) :
    fetchLoop store (fun _ => false) 0 =
      (Except.ok store, store.length / 1000 + 1) ∧
    (store.length = 1200 → (fetchLoop store (fun _ => false) 0).2 = 2) := by
  have h := fetchLoop_noFail store.length store 0 (by omega)
  constructor
  · simpa using h
  · intro h12
    rw [h]
    simp [h12]

/-- Witness for claim C4's theorem on a concrete 1200-record store. -/
theorem c4_witness :
    (fetchLoop (List.replicate 1200 blankRow) (fun _ => false) 0).2 = 2 :=
  (c4_fetcher_complete (List.replicate 1200 blankRow)).2 (by rw [List.length_replicate])

/-! ## Claim C6 -/

/-- Claim C6 (counterexample): part_002's score-descending sort treats a
missing score as 0, not -1, so on the two-record list [missing-score,
score 0] the stable sort keeps the missing-score record first, in front of a
record with a present score in [0,100]: the claim fails on this sort. -/
theorem c6_counterexample :
    sortScoreDesc2 [rowNoScore, rowZero] = [rowNoScore, rowZero] ∧
    rowNoScore.score_profil = none ∧ rowZero.score_profil = some 0 := by
  decide

/-- Claim C6 (amended): for part_001's score-descending sort (missing score
treated as -1) the claim holds: the key sequence of the output is
non-increasing, and — provided every present score lies in [0,100] — no
missing-score record precedes a present-score record; part_002's sort
instead uses 0 for a missing score. -/
theorem c6_amended_sorted (rows : List CandidateRow)
    (h : scoresInRange rows = true) :
    ((sortScoreDesc1 rows).map keyScore1).Pairwise (fun a b => b ≤ a) ∧
    (sortScoreDesc1 rows).Pairwise
      (fun a b => a.score_profil = none → b.score_profil = none) := by
  have hs : (sortScoreDesc1 rows).Pairwise scoreGE1 :=
    List.sorted_insertionSort scoreGE1 rows
  constructor
  · exact List.pairwise_map.mpr hs
  · refine hs.imp_of_mem ?_
    intro a b ha hb hab hnone
    have hperm : List.Perm (sortScoreDesc1 rows) rows :=
      List.perm_insertionSort scoreGE1 rows
    have hb' : b ∈ rows := hperm.mem_iff.mp hb
    cases hsb : b.score_profil with
    | none => rfl
    | some s =>
      exfalso
      have hall := List.all_eq_true.mp h b hb'
      rw [hsb] at hall
      have hr : (0 : ℚ) ≤ s ∧ s ≤ 100 := of_decide_eq_true hall
      have hk : keyScore1 b ≤ keyScore1 a := hab
      rw [keyScore1, keyScore1, hnone, hsb] at hk
      simp only [Option.getD_some, Option.getD_none] at hk
      linarith [hr.1]

/-- Witness for claim C6's amended theorem at a concrete record list. -/
theorem c6_witness :
    ((sortScoreDesc1 [rowNoScore, rowFifty]).map keyScore1).Pairwise
      (fun a b => b ≤ a) ∧
    (sortScoreDesc1 [rowNoScore, rowFifty]).Pairwise
      (fun a b => a.score_profil = none → b.score_profil = none) :=
  c6_amended_sorted [rowNoScore, rowFifty] (by decide)

/-! ## Claim C8 -/

/-- Claim C8 (confirmed): the CV opener returns an absolute http(s) URL
unchanged; otherwise it strips one leading "bucket/" prefix and asks the
file store for a signed URL with a 900-second (15-minute) expiry; an empty
reference yields `none`, a signing error (the `sign` oracle returning
`none`) propagates as `none`, and a record with neither cv_url nor
file_name yields `none` ("cannot open") without throwing. -/
theorem c8_cv_opener (sign : String → Nat → Option String)
    (bucket pathOrUrl : String) (row : CandidateRow) :
    (isHttpUrl pathOrUrl = true →
      createSignedUrlIfNeeded sign pathOrUrl bucket = some pathOrUrl) ∧
    (pathOrUrl ≠ "" → isHttpUrl pathOrUrl = false →
      createSignedUrlIfNeeded sign pathOrUrl bucket =
        sign (stripBucket bucket pathOrUrl) 900) ∧
    createSignedUrlIfNeeded sign "" bucket = none ∧
    (norm1 row.cv_url = "" → norm1 row.file_name = "" →
      openCv sign bucket row = none) := by
  refine ⟨?_, ?_, ?_, ?_⟩
  · intro hhttp
    have hne : ¬(pathOrUrl == "") = true := by
      intro he
      rw [beq_iff_eq] at he
      subst he
      exact absurd hhttp (by decide)
    simp [createSignedUrlIfNeeded, hne, hhttp]
  · intro hne hhttp
    have hne' : ¬(pathOrUrl == "") = true := by
      rw [beq_iff_eq]
      exact hne
    simp [createSignedUrlIfNeeded, hne', hhttp]
  · rfl
  · intro h1 h2
    simp [openCv, h1, h2]

/-- Witness for claim C8's theorem at concrete references and oracle. -/
theorem c8_witness :
    createSignedUrlIfNeeded (fun p _ => some p) "https://x/y.pdf" "cvs" =
      some "https://x/y.pdf" ∧
    createSignedUrlIfNeeded (fun p _ => some p) "cvs/a.pdf" "cvs" =
      (fun p _ => some p) (stripBucket "cvs" "cvs/a.pdf") 900 ∧
    openCv (fun p _ => some p) "cvs" blankRow = none :=
  ⟨(c8_cv_opener (fun p _ => some p) "cvs" "https://x/y.pdf" blankRow).1 (by decide),
   (c8_cv_opener (fun p _ => some p) "cvs" "cvs/a.pdf" blankRow).2.1
      (by decide) (by decide),
   (c8_cv_opener (fun p _ => some p) "cvs" "x" blankRow).2.2.2
      (by decide) (by decide)⟩

/-! ## Claim C9 -/

/-- Claim C9 (counterexample): when the first page request fails, part_002's
`fetchTabData` sets the rows to the empty list, overwriting the previously
displayed records rather than leaving them untouched: the claim fails for
this fetcher. -/
theorem c9_counterexample :
    (part002ApplyFetch [] (fun _ => true) [blankRow]).1 ≠ [blankRow] := by
  have h : fetchLoop [] (fun _ => true) 0 = (Except.error "fetch error", 1) := by
    rw [fetchLoop]
    simp
  simp [part002ApplyFetch, h]

/-- Claim C9 (amended): when a page request fails, the loop aborts (a
failing request is answered with the error immediately and is the only
request issued from that point) and the error message is surfaced; part_001
leaves the previously displayed records untouched, while part_002 clears
them to the empty list. -/
theorem c9_amended_error_policy (store : List CandidateRow)
    (failAt : Nat → Bool) (prevRows : List CandidateRow) (e : String) (n : Nat)
    (h : fetchLoop store failAt 0 = (Except.error e, n)) :
    part001ApplyFetch store failAt prevRows = (prevRows, some e) ∧
    part002ApplyFetch store failAt prevRows = ([], some e) ∧
    (∀ s, failAt s = true →
      fetchLoop store failAt s = (Except.error "fetch error", 1)) := by
  refine ⟨?_, ?_, ?_⟩
  · simp [part001ApplyFetch, h]
  · simp [part002ApplyFetch, h]
  · intro s hs
    rw [fetchLoop, if_pos hs]

/-- Witness for claim C9's amended theorem at a concrete failing fetch. -/
theorem c9_witness :
    part001ApplyFetch [] (fun _ => true) [blankRow] =
      ([blankRow], some "fetch error") ∧
    part002ApplyFetch [] (fun _ => true) [blankRow] =
      ([], some "fetch error") :=
  have h : fetchLoop [] (fun _ => true) 0 = (Except.error "fetch error", 1) := by
    rw [fetchLoop]
    simp
  ⟨(c9_amended_error_policy [] (fun _ => true) [blankRow] "fetch error" 1 h).1,
   (c9_amended_error_policy [] (fun _ => true) [blankRow] "fetch error" 1 h).2.1⟩

/-! ## Claim C10 -/

theorem splitChars_ne_nil (sep : Char) (l : List Char) : splitChars sep l ≠ [] := by
  induction l with
  | nil => simp [splitChars]
  | cons c t ih =>
    by_cases hc : c = sep
    · simp [splitChars, hc]
    · simp only [splitChars, if_neg hc]
      cases h : splitChars sep t <;> simp

theorem mem_splitChars_not_mem (sep : Char) (l : List Char) :
    ∀ p ∈ splitChars sep l, sep ∉ p := by
  induction l with
  | nil =>
    intro p hp
    simp only [splitChars, List.mem_singleton] at hp
    subst hp
    simp
  | cons c t ih =>
    intro p hp
    by_cases hc : c = sep
    · simp only [splitChars, if_pos hc, List.mem_cons] at hp
      rcases hp with hp | hp
      · subst hp
        simp
      · exact ih p hp
    · simp only [splitChars, if_neg hc] at hp
      cases h : splitChars sep t with
      | nil => exact absurd h (splitChars_ne_nil sep t)
      | cons q qs =>
        rw [h] at hp
        simp only [List.mem_cons] at hp
        rcases hp with hp | hp
        · subst hp
          intro hmem
          have hq : q ∈ splitChars sep t := by
            rw [h]
            exact List.mem_cons_self q qs
          rcases List.mem_cons.mp hmem with he | hmem'
          · exact hc he.symm
          · exact ih q hq hmem'
        · have hmem : p ∈ splitChars sep t := by
            rw [h]
            exact List.mem_cons_of_mem q hp
          exact ih p hmem

theorem subChars_single_eq_false (c : Char) (l : List Char) (h : c ∉ l) :
    subChars [c] l = false := by
  induction l with
  | nil => rfl
  | cons a t ih =>
    have hne : c ≠ a := fun e => h (e ▸ List.mem_cons_self a t)
    have ht : c ∉ t := fun hm => h (List.mem_cons_of_mem a hm)
    simp [subChars, prefixChars, hne, ih ht]

theorem head?_drop_one_mem (l : List String) (x : String)
    (h : (l.drop 1).head? = some x) : x ∈ l := by
  cases l with
  | nil => simp at h
  | cons a t =>
    cases t with
    | nil => simp at h
    | cons b t' =>
      simp only [List.drop_succ_cons, List.drop_zero, List.head?_cons,
        Option.some.injEq] at h
      subst h
      exact List.mem_cons_of_mem a (List.mem_cons_self b t')

/-- Claim C10 (confirmed): the Basic-auth middleware answers 401 whenever
either credential environment variable is unset/blank, and also whenever the
configured password contains a ':' — the decoded credentials are split at
every ':' so no split segment can equal such a password, even for a request
carrying exactly the configured username and password; the gate fails
closed, never open. -/
theorem c10_auth_fails_closed (decode : String → String)
    (username password basicAuth : Option String)
    (h : truthyStr username = false ∨ truthyStr password = false ∨
      containsSub (password.getD "") ":" = true) :
    middleware decode username password basicAuth = false := by
  rcases h with h | h | h
  · simp [middleware, h]
  · simp [middleware, h]
  · unfold middleware
    split_ifs with h1 h2 h3
    · exfalso
      rw [Bool.and_eq_true] at h3
      have hpass := h3.2
      rw [beq_iff_eq] at hpass
      have hmem := head?_drop_one_mem _ _ hpass
      rcases List.mem_map.mp hmem with ⟨part, hpart, heq⟩
      have hnot := mem_splitChars_not_mem ':' _ part hpart
      have hfalse := subChars_single_eq_false ':' part hnot
      rw [← heq] at h
      have htrue : subChars [':'] part = true := h
      rw [hfalse] at htrue
      exact Bool.noConfusion htrue
    · rfl
    · rfl
    · rfl

/-- Witness for claim C10's theorem: the configured password "se:cret"
contains a ':', so even the request carrying exactly those credentials is
rejected. -/
theorem c10_witness :
    middleware (fun _ => "admin:se:cret") (some "admin") (some "se:cret")
      (some "Basic QWRtaW4=") = false :=
  c10_auth_fails_closed (fun _ => "admin:se:cret") (some "admin")
    (some "se:cret") (some "Basic QWRtaW4=") (Or.inr (Or.inr (by decide)))

end CvDashboard
